import Mathlib

/-!
Verification of the robusta JNI binding generator: a shallow embedding of
the declaration-rewriting engine and of the infallible conversion
protocol, together with theorems about them.

Embedded source files:

* `src/src/transformation.rs` — the early single-crate signature rewriter
  (`ImplFnTransformer::fold_signature`);
* `src/robusta-codegen/src/transformation/mod.rs` — the module
  transformer, impl cleaner, freestanding transformer and JNI signature
  transformer;
* `src/src/convert/unchecked.rs` — the infallible (`unchecked`)
  conversion trait implementations.

Modelling conventions: machine integers are `Nat` (`jboolean` = u8,
`jchar` = u16, a Rust `char` is a unicode scalar value); JNI object
references are an inductive with an explicit `null`; fallible operations
(`.unwrap()` on a JNI result) return `Option`; diagnostic emission
(`emit_warning!` / `emit_error!` of `proc_macro_error`) is an explicit
accumulator returned alongside each result.  Code of the repository that
is referenced but not available under `src/` (the `utils.rs` helpers and
the `exported.rs` / `imported.rs` method transformers) is modelled from
the spec, as marked in the corresponding doc comments, or abstracted as
a function parameter where no claim depends on its body.
-/

namespace Robusta

/-!
Diagnostics.  The macros `emit_warning!` and `emit_error!` accumulate
diagnostics without aborting the pass; we return them explicitly.
-/

inductive Severity where
  | warning
  | error
  deriving DecidableEq, Repr

structure Diag where
  sev : Severity
  msg : String
  deriving DecidableEq, Repr

/-!
JNI object references.  A `JObject` is a reference that is either the
null reference or a real object (identified here by a numeric id).
`JNIEnv::is_same_object(a, b)` compares references for identity; called
with `JObject::null()` as second argument it is a null test.
-/

inductive JObj where
  | null
  | obj (id : Nat)
  deriving DecidableEq, Repr

/-- Embeds `env.is_same_object(s, JObject::null()).unwrap()` from
`src/convert/unchecked.rs`: reference-identity comparison with the null
reference, that is, a null test on `s`. -/
def isSameObjectNull (s : JObj) : Bool :=
  match s with
  | .null => true
  | .obj _ => false

/-!
Boolean conversion: the impls for `bool` in `src/convert/unchecked.rs`.
-/

/-- Embeds `IntoJavaValue for bool`: `if self { 1 } else { 0 }`
(`jboolean` = u8, modelled as `Nat`). -/
def intoJavaBool (b : Bool) : Nat :=
  if b then 1 else 0

/-- Embeds `FromJavaValue for bool`: `s == 1`. -/
def fromJavaBool (s : Nat) : Bool :=
  s == 1

/-!
Character conversion: the impls for `char` in `src/convert/unchecked.rs`.
A Rust `char` is a unicode scalar value: a code point below `0x110000`
that is not a UTF-16 surrogate.  A `jchar` is a u16.  Both are modelled
as `Nat`, with the `char` validity invariant as a decidable predicate.
-/

/-- Validity invariant of a Rust `char` value: a unicode scalar value. -/
def isRustChar (n : Nat) : Prop :=
  n < 0x110000 ∧ ¬(0xD800 ≤ n ∧ n ≤ 0xDFFF)

instance (n : Nat) : Decidable (isRustChar n) := by
  unfold isRustChar; infer_instance

/-- Embeds `IntoJavaValue for char`: `self as jchar`, a truncating cast
of the scalar value to u16. -/
def intoJavaChar (c : Nat) : Nat :=
  c % 0x10000

/-- Embeds `FromJavaValue for char`:
`std::char::decode_utf16(std::iter::once(s)).next().unwrap().unwrap()`.
Decoding a single UTF-16 unit yields the character with that code point
unless the unit is a surrogate, in which case decoding yields an error
and the inner `.unwrap()` panics (modelled as `none`). -/
def fromJavaChar (s : Nat) : Option Nat :=
  if 0xD800 ≤ s ∧ s ≤ 0xDFFF then none else some s

/-!
Boolean array conversion: `FromJavaValue for Box<[bool]>` in
`src/convert/unchecked.rs`.  The source builds the read buffer as
`Vec::with_capacity(len as usize).into_boxed_slice()`: `with_capacity`
allocates capacity but the vector has length 0, so the boxed slice is
empty.  `get_boolean_array_region(s, 0, &mut *buf)` copies exactly
`buf.len()` elements starting at offset 0, erroring (so the `.unwrap()`
panics) if the requested region exceeds the array.
-/

/-- Embeds `Vec::with_capacity(n).into_boxed_slice()`: capacity `n`,
length 0. -/
def vecWithCapacityBoxed (_n : Nat) : List Nat :=
  []

/-- Embeds `env.get_boolean_array_region(s, start, buf)`: overwrites
`buf` with the `buf.length` elements of `arr` starting at `start`;
errors (`none`) if the requested region is out of bounds. -/
def getBooleanArrayRegion (arr : List Nat) (start : Nat) (buf : List Nat) :
    Option (List Nat) :=
  if start + buf.length ≤ arr.length then
    some ((arr.drop start).take buf.length)
  else
    none

/-- Embeds `FromJavaValue for Box<[bool]>`: reads the array length,
allocates the buffer with `Vec::with_capacity(len).into_boxed_slice()`,
fills it with `get_boolean_array_region`, then converts each element
with `FromJavaValue for bool`. -/
def fromJavaBoolArray (arr : List Nat) : Option (List Bool) :=
  let len := arr.length
  let buf := vecWithCapacityBoxed len
  match getBooleanArrayRegion arr 0 buf with
  | none => none
  | some filled => some (filled.map fromJavaBool)

/-!
Optional conversions: `FromJavaValue for JOption<T>` and
`FromJavaValue for Option<String>` in `src/convert/unchecked.rs`.
-/

/-- The robusta type `JOption<T>`, an `Option` lookalike. -/
inductive JOption (α : Type) where
  | some (value : α)
  | none
  deriving DecidableEq, Repr

/-- Embeds `IntoJavaValue for JOption<T>`: `Some(value)` converts the
payload (and autoboxes it), `None` becomes the null reference.  The
payload conversion `T::into` is a parameter. -/
def intoJavaJOption {α : Type} (intoT : α → JObj) (v : JOption α) : JObj :=
  match v with
  | .some value => intoT value
  | .none => JObj.null

/-- Embeds `FromJavaValue for JOption<T>` exactly as written in the
source: the branch taken when `env.is_same_object(s, JObject::null())`
is true builds `Some(T::from(s2, env))` (with `s2` a clone of `s`), and
the other branch yields `None`.  The payload conversion `T::from` is a
parameter. -/
def fromJavaJOption {α : Type} (fromT : JObj → α) (s : JObj) : JOption α :=
  if isSameObjectNull s then
    JOption.some (fromT s)
  else
    JOption.none

/-- Embeds `FromJavaValue for Option<String>`: same structure as the
`JOption<T>` impl, with `<String as FromJavaValue>::from` as the payload
conversion (parameterised here); the null-identity check gates the
`Some` branch. -/
def fromJavaOptionString (fromString : JObj → String) (s : JObj) :
    Option String :=
  if isSameObjectNull s then
    some (fromString s)
  else
    none

/-!
Symbol naming: `ImplFnTransformer::fold_signature` in
`src/src/transformation.rs`.  The generated function identifier is
`format!("{}_{}_{}", snake_case_package, self.struct_name, node.ident)`
where `snake_case_package = self.package.clone().replace('.', "_")`,
and the method is emitted with `#[no_mangle]` and `extern "system"`, so
this identifier is exactly the exported symbol name.
-/

/-- Embeds `self.package.clone().replace('.', "_")`: every dot of the
package becomes an underscore (single-character pattern and replacement,
hence a per-character map). -/
def snakeCasePackage (p : String) : String :=
  ⟨p.data.map (fun c => if c == '.' then '_' else c)⟩

/-- The generated JNI entry-point identifier of
`ImplFnTransformer::fold_signature`:
`format!("{}_{}_{}", snake_case_package, struct_name, method_name)`. -/
def jniMethodName (package structName methodName : String) : String :=
  snakeCasePackage package ++ "_" ++ structName ++ "_" ++ methodName

/-!
Rust AST fragments, a `syn` subset sufficient for the transformation
code in `src/robusta-codegen/src/transformation/mod.rs`.  Reference
types are modelled by their referent: the optional lifetime and the
mutability of a Rust reference affect no transformation decision (the
source matches only on the `Type::Reference` constructor and copies the
qualifiers through).  The `other` constructor stands for every further
`syn::Type` variant (tuple, slice, pointer, ...), none of which any
transformation decision inspects beyond the catch-all match arm.  The
`assoc` constructor stands for the qualified associated types
`<base as Trait<..>>::Assoc` that substitution produces.
-/

inductive RsType where
  | path (name : String) (lifetimes : List String)
  | ref (elem : RsType)
  | other (kind : Nat)
  | assoc (base : RsType) (traitName assocName : String)
  deriving DecidableEq, Repr

/-- A function argument: either a receiver (`self` / `&self` /
`&mut self`, `FnArg::Receiver`) or a typed pattern (`FnArg::Typed`). -/
inductive FnArg where
  | receiver (isRef : Bool) (isMut : Bool)
  | typed (pat : String) (ty : RsType)
  deriving DecidableEq, Repr

inductive RsReturnType where
  | default
  | someTy (ty : RsType)
  deriving DecidableEq, Repr

/-- A generic parameter (`syn::GenericParam`). -/
inductive GenParam where
  | lifetime (name : String)
  | typeParam (name : String)
  | constParam (name : String)
  deriving DecidableEq, Repr

/-- The self type of an impl block, as the transformers see it: a path
(modelled by its canonical name) carrying the lifetime arguments that
appear angle-bracketed in its segments. -/
structure StructPath where
  name : String
  lifetimes : List String
  deriving DecidableEq, Repr

/-- The struct type a receiver is rewritten to
(`FreestandingTransformer::fold_fn_arg`, receiver arm): the struct path
itself, wrapped in a reference if the receiver was `&self` or
`&mut self`. -/
def structSelfType (st : StructPath) (isRef : Bool) : RsType :=
  if isRef then RsType.ref (RsType.path st.name st.lifetimes)
  else RsType.path st.name st.lifetimes

/-- Embeds `FreestandingTransformer::fold_fn_arg`
(`src/robusta-codegen/src/transformation/mod.rs`): a receiver becomes a
typed parameter of the struct type bound to a generated name, emitting
an Error when the struct path carries no `env` lifetime among its
angle-bracketed lifetime arguments; a typed argument whose pattern is
the identifier `self` is rebound to the generated name; anything else
passes through.  The generated-name function `uid` abstracts
`unique_ident` (`utils.rs`, not under `src/`), which per the spec
derives a fresh name from the given base plus a disambiguating
suffix. -/
def freestandingFoldFnArg (st : StructPath) (structName fnName : String)
    (uid : String → String) : FnArg → FnArg × List Diag
  | .receiver isRef _isMut =>
      let ds : List Diag :=
        if st.lifetimes.contains "env" then []
        else [⟨Severity.error,
          "must have one `\x27env` lifetime in impl to support self methods when using lifetime-parametrized struct"⟩]
      (.typed (uid ("receiver_" ++ structName ++ "_" ++ fnName))
        (structSelfType st isRef), ds)
  | .typed pat ty =>
      if pat == "self" then
        (.typed (uid ("receiver_" ++ structName ++ "_" ++ fnName)) ty, [])
      else
        (.typed pat ty, [])

/-- The per-method conversion mode (`CallType` in
`transformation/exported.rs`): `Safe` uses the fallible conversion
family, `Unchecked` the infallible one. -/
inductive CallType where
  | safe
  | unchecked
  deriving DecidableEq, Repr

/-- The trait whose `Source` associated type replaces a parameter type,
per call type (`JNISignatureTransformer::fold_fn_arg`). -/
def sourceTraitName : CallType → String
  | .safe => "TryFromJavaValue"
  | .unchecked => "FromJavaValue"

/-- The trait whose `Target` associated type replaces the return type,
per call type (`JNISignatureTransformer::fold_return_type`). -/
def targetTraitName : CallType → String
  | .safe => "TryIntoJavaValue"
  | .unchecked => "IntoJavaValue"

/-- Embeds `JNISignatureTransformer::fold_fn_arg`: first applies the
freestanding (receiver-erasing) fold, then unconditionally replaces the
resulting argument type `T` by `<T as TryFromJavaValue<..>>::Source`
(Safe) or `<T as FromJavaValue<..>>::Source` (Unchecked).  The receiver
arm of the match is unreachable (the freestanding fold never returns a
receiver); the source panics there. -/
def jniFoldFnArg (st : StructPath) (structName fnName : String)
    (uid : String → String) (ct : CallType) (arg : FnArg) :
    FnArg × List Diag :=
  match freestandingFoldFnArg st structName fnName uid arg with
  | (FnArg.receiver isRef isMut, ds) => (FnArg.receiver isRef isMut, ds)
  | (FnArg.typed pat ty, ds) =>
      match ct with
      | .safe => (FnArg.typed pat (RsType.assoc ty "TryFromJavaValue" "Source"), ds)
      | .unchecked => (FnArg.typed pat (RsType.assoc ty "FromJavaValue" "Source"), ds)

/-- The error message of `JNISignatureTransformer::fold_return_type`. -/
def onlyTypesErrMsg : String :=
  "Only type or type paths are permitted as type ascriptions in function params"

/-- Embeds `JNISignatureTransformer::fold_return_type`: a path or
reference return type `T` becomes `<T as IntoJavaValue<..>>::Target`
(Unchecked) or `<T as TryIntoJavaValue<..>>::Target` (Safe); the default
(no) return type passes through; any other type shape is returned
unchanged with an Error diagnostic. -/
def jniFoldReturnType (ct : CallType) : RsReturnType → RsReturnType × List Diag
  | .default => (.default, [])
  | .someTy ty =>
      match ty, ct with
      | RsType.path n ls, .unchecked =>
          (.someTy (RsType.assoc (RsType.path n ls) "IntoJavaValue" "Target"), [])
      | RsType.path n ls, .safe =>
          (.someTy (RsType.assoc (RsType.path n ls) "TryIntoJavaValue" "Target"), [])
      | RsType.ref e, .unchecked =>
          (.someTy (RsType.assoc (RsType.ref e) "IntoJavaValue" "Target"), [])
      | RsType.ref e, .safe =>
          (.someTy (RsType.assoc (RsType.ref e) "TryIntoJavaValue" "Target"), [])
      | t, _ => (.someTy t, [⟨Severity.error, onlyTypesErrMsg⟩])

/-- Embeds `JNISignatureTransformer::transform_generics`: for a self
method, every angle-bracketed lifetime argument of the struct path
except those named `env` is appended to the generic parameter list; then
the `env` lifetime parameter is appended once, unconditionally. -/
def transformGenerics (st : StructPath) (generics : List GenParam)
    (selfMethod : Bool) : List GenParam :=
  (if selfMethod then
      generics ++ (st.lifetimes.filter (fun l => l != "env")).map GenParam.lifetime
    else generics)
  ++ [GenParam.lifetime "env"]

/-- A function signature (`syn::Signature` subset): name, generic
parameters, inputs, output and the extern ABI marker; the remaining
fields (constness, variadic, ...) are copied through unchanged by every
transformer involved. -/
structure RsSignature where
  ident : String
  generics : List GenParam
  inputs : List FnArg
  output : RsReturnType
  abi : Option String
  deriving DecidableEq, Repr

/-- Modelled from the spec: `is_self_method` lives in `utils.rs`, which
is not under `src/`; per the spec, receiver erasure and lifetime
threading apply when the method has an implicit receiver, in either
syntactic form (a `FnArg::Receiver`, or a typed parameter bound to the
identifier `self`). -/
def isSelfMethod (sig : RsSignature) : Bool :=
  sig.inputs.any (fun a =>
    match a with
    | FnArg.receiver _ _ => true
    | FnArg.typed pat _ => pat == "self")

/-- Embeds `JNISignatureTransformer::fold_signature`: generics are
transformed with `transform_generics` (using whether the method is a
self method), every input goes through `fold_fn_arg`, the output through
`fold_return_type`; identifier and ABI are kept (the identity folds of
the trait defaults).  Diagnostics are accumulated in emission order:
inputs first, then the return type. -/
def jniFoldSignature (st : StructPath) (structName fnName : String)
    (uid : String → String) (ct : CallType) (sig : RsSignature) :
    RsSignature × List Diag :=
  ({ ident := sig.ident
     generics := transformGenerics st sig.generics (isSelfMethod sig)
     inputs := sig.inputs.map (fun a => (jniFoldFnArg st structName fnName uid ct a).1)
     output := (jniFoldReturnType ct sig.output).1
     abi := sig.abi },
   (sig.inputs.map (fun a => (jniFoldFnArg st structName fnName uid ct a).2)).flatten
     ++ (jniFoldReturnType ct sig.output).2)

/-!
Retagging: the structural relation between the Safe and the Unchecked
output of the JNI signature transformer.  `retagHeadType` renames the
trait of a head substitution node from the infallible family to the
fallible one and leaves every other type untouched.
-/

/-- Renames an infallible-family trait to its fallible counterpart. -/
def tryFamilyName (tr : String) : String :=
  if tr == "FromJavaValue" then "TryFromJavaValue"
  else if tr == "IntoJavaValue" then "TryIntoJavaValue"
  else tr

/-- Retags the head substitution node of a type, if any. -/
def retagHeadType : RsType → RsType
  | .assoc base tr n => .assoc base (tryFamilyName tr) n
  | t => t

/-- Retags the type of a typed argument. -/
def retagFnArg : FnArg → FnArg
  | .typed pat ty => .typed pat (retagHeadType ty)
  | a => a

/-- Retags the head substitution node of a return type. -/
def retagReturn : RsReturnType → RsReturnType
  | .default => .default
  | .someTy t => .someTy (retagHeadType t)

/-- Retags every argument type and the return type of a signature,
leaving identifier, generics and ABI untouched. -/
def retagSignature (sig : RsSignature) : RsSignature :=
  { sig with inputs := sig.inputs.map retagFnArg, output := retagReturn sig.output }

/-- Whether the head of a type is a substitution (`assoc`) node. -/
def RsType.headIsAssoc : RsType → Bool
  | .assoc _ _ _ => true
  | _ => false

/-- Whether the head of a return type is a substitution node.  A
user-written signature (the input of the transformation) never contains
one: `assoc` nodes only arise as substitution output. -/
def RsReturnType.headIsAssoc : RsReturnType → Bool
  | .default => false
  | .someTy t => t.headIsAssoc

/-!
The module transformer: `ModTransformer::transform_item_impl` and
`ImplCleaner` in `src/robusta-codegen/src/transformation/mod.rs`.
Impl items other than methods play no role in the transformation, so an
impl item is modelled as a method record carrying the fields the
classifier and cleaner inspect.
-/

/-- An impl method: visibility, the name of its extern ABI marker (as in
`extern "jni"`), its attribute names, and its name standing for the rest
of the declaration (signature and body are untouched by the definitions
below that inspect this record). -/
structure RsMethod where
  isPub : Bool
  abiName : Option String
  attrs : List String
  name : String
  deriving DecidableEq, Repr

/-- The role of an impl item (`ImplItemType` in the source). -/
inductive ImplItemType where
  | exported
  | imported
  | unexported
  deriving DecidableEq, Repr

/-- Modelled from the spec: `ImplExportVisitor`
(`transformation/exported.rs`, not under `src/`) classifies each impl
item by visibility and calling-convention marker alone: a public method
marked with the JNI calling convention is Exported; a method marked as a
call from host into the JVM (the distinct `"java"` marker), any
visibility, is Imported; anything else is Unexported. -/
def classify (m : RsMethod) : ImplItemType :=
  if m.isPub && m.abiName == some "jni" then ImplItemType.exported
  else if m.abiName == some "java" then ImplItemType.imported
  else ImplItemType.unexported

/-- Decidable test for the Exported role. -/
def isExported (t : ImplItemType) : Bool :=
  match t with
  | .exported => true
  | _ => false

/-- Embeds `ImplCleaner::fold_impl_item_method`: on a public method with
the `"jni"` extern marker, the marker is removed and every attribute
whose path is the single identifier `call_type` is dropped; any other
method passes through.  (The source keeps an attribute only when
`path.get_ident()` yields an identifier different from `call_type`;
attribute paths are modelled as plain names.) -/
def implCleanerFold (m : RsMethod) : RsMethod :=
  if m.isPub && m.abiName == some "jni" then
    { m with abiName := none, attrs := m.attrs.filter (fun a => a != "call_type") }
  else m

/-- The self type of an impl block: a type path (modelled by its
canonical name) or any other type. -/
inductive SelfTy where
  | path (name : String)
  | other
  deriving DecidableEq, Repr

/-- An impl block: its self type and its methods. -/
structure RsItemImpl where
  selfTy : SelfTy
  items : List RsMethod
  deriving DecidableEq, Repr

/-- The output of `transform_item_impl`, a token stream holding the
emitted impl block followed by the freestanding transformed items, plus
the diagnostics the call emitted. -/
structure ImplOut where
  implItems : List RsMethod
  freestanding : List RsMethod
  diags : List Diag
  deriving DecidableEq, Repr

/-- Embeds `package_map.get(&struct_name).cloned().flatten()`: the
package map stores an optional package per type name; a missing entry
and a present-but-`None` entry both resolve to no package. -/
def structPackage (pm : List (String × Option String)) (name : String) :
    Option String :=
  match pm.lookup name with
  | none => none
  | some p => p

/-- Embeds `ModTransformer::transform_item_impl`.  For a path self type:
if the package map resolves no package for it, a single Warning naming
the type is emitted and the node is returned as its own token stream,
unmodified; otherwise every item is kept inside the impl block —
Exported items cleaned by `ImplCleaner`, Imported items additionally
transformed by the imported-method transformer, Unexported items as they
are — and the Exported items, transformed by the exported-method
transformer, are appended after the block in their original order.  For
a non-path self type the items are kept and nothing is appended.  The
exported- and imported-method transformers (`exported.rs` /
`imported.rs`, not under `src/`) are abstracted as the parameters `ex`
and `im`; no claim proved below depends on their bodies. -/
def transformItemImpl (ex im : RsMethod → RsMethod)
    (pm : List (String × Option String)) (node : RsItemImpl) : ImplOut :=
  match node.selfTy with
  | SelfTy.path structName =>
    match structPackage pm structName with
    | none =>
        { implItems := node.items
          freestanding := []
          diags := [⟨Severity.warning,
            "can\x27t find package for struct `" ++ structName ++ "`"⟩] }
    | some _ =>
        { implItems := node.items.map (fun m =>
            match classify m with
            | ImplItemType.exported => implCleanerFold m
            | ImplItemType.imported => im (implCleanerFold m)
            | ImplItemType.unexported => m)
          freestanding := (node.items.filter (fun m => isExported (classify m))).map ex
          diags := [] }
  | SelfTy.other =>
      { implItems := node.items, freestanding := [], diags := [] }

/-- A module item as the fold of `ModTransformer` sees it: an impl block,
or any other item kind (struct, fn, nested mod, ...), which the fold
rewrites structurally and independently of the impl handling. -/
inductive RsItem where
  | implBlock (i : RsItemImpl)
  | other (tag : Nat)
  deriving DecidableEq, Repr

/-- An item of the rewritten module: an emitted impl block, a generated
freestanding function, or a structurally-rewritten other item. -/
inductive OutItem where
  | implBlock (items : List RsMethod)
  | freestandingFn (m : RsMethod)
  | other (tag : Nat)
  deriving DecidableEq, Repr

/-- One step of `ModTransformer::fold_item`: an impl block becomes the
verbatim token stream of `transform_item_impl` (the emitted block
followed by the freestanding items); any other item is rewritten
structurally (identity on the data this model carries). -/
def transformItem (ex im : RsMethod → RsMethod)
    (pm : List (String × Option String)) : RsItem → List OutItem × List Diag
  | RsItem.implBlock i =>
      let o := transformItemImpl ex im pm i
      (OutItem.implBlock o.implItems :: o.freestanding.map OutItem.freestandingFn,
       o.diags)
  | RsItem.other t => ([OutItem.other t], [])

/-- The item walk of `ModTransformer::fold_item_mod`: every item of the
module is folded in declaration order and the diagnostics accumulate in
the same order. -/
def transformItems (ex im : RsMethod → RsMethod)
    (pm : List (String × Option String)) : List RsItem → List OutItem × List Diag
  | [] => ([], [])
  | it :: rest =>
      ((transformItem ex im pm it).1 ++ (transformItems ex im pm rest).1,
       (transformItem ex im pm it).2 ++ (transformItems ex im pm rest).2)

end Robusta

open Robusta

/-- C1: the symbol generated by `ImplFnTransformer::fold_signature` for
type `Foo` in package `com.example`, method `bar`, is
`com_example_Foo_bar` — it is not the claimed `Java_com_example_Foo_bar`:
the `Java_` marker required by the JNI dynamic-linking convention is
missing from the format string. -/
theorem c1_generated_symbol_name_lacks_java_marker :
    jniMethodName "com.example" "Foo" "bar" = "com_example_Foo_bar" ∧
    jniMethodName "com.example" "Foo" "bar" ≠ "Java_com_example_Foo_bar" := by
  decide

/-- C2: in `FromJavaValue for JOption<T>` and `for Option<String>`, the
null-identity check on the incoming value gates the `Some` branch, not
the `None` branch: a null input converts to `Some` of the converted null
payload, a non-null input converts to `None`, and a `JOption::Some`
value round-tripped through `IntoJavaValue` comes back as `None`. -/
theorem c2_null_check_gates_some_branch :
    fromJavaJOption (fun _ => (0 : Nat)) JObj.null = JOption.some 0 ∧
    fromJavaJOption (fun _ => (0 : Nat)) (JObj.obj 7) = JOption.none ∧
    fromJavaOptionString (fun _ => "payload") JObj.null = some "payload" ∧
    fromJavaOptionString (fun _ => "payload") (JObj.obj 7) = none ∧
    fromJavaJOption (fun _ => (5 : Nat))
      (intoJavaJOption (fun v => JObj.obj v) (JOption.some 5)) = JOption.none := by
  decide

/-- C7 (counterexample): the char conversion is not bijective beyond the
basic multilingual plane.  The scalar value `0x10000` is a valid Rust
char, `IntoJavaValue` silently truncates it to `0`, and converting back
yields the char `0`, not the original; the valid char `0x1D800`
truncates into the surrogate range, where the conversion back panics. -/
theorem c7_roundtrip_fails_beyond_bmp :
    isRustChar 0x10000 ∧
    intoJavaChar 0x10000 = 0 ∧
    fromJavaChar (intoJavaChar 0x10000) = some 0 ∧
    fromJavaChar (intoJavaChar 0x10000) ≠ some 0x10000 ∧
    isRustChar 0x1D800 ∧
    fromJavaChar (intoJavaChar 0x1D800) = none := by
  decide

/-- C7 (amended): the char round-trip holds exactly on the basic
multilingual plane: for every valid Rust char value below `0x10000`,
converting to a JNI char and back returns the original value. -/
theorem c7_char_roundtrip_on_bmp (n : Nat) (hc : isRustChar n)
    (hb : n < 0x10000) : fromJavaChar (intoJavaChar n) = some n := by
  have hmod : intoJavaChar n = n := Nat.mod_eq_of_lt hb
  rw [hmod]
  unfold fromJavaChar
  rw [if_neg]
  exact hc.2

/-- C7 (witness): the amended round-trip at the concrete char `a`
(scalar value 97). -/
theorem c7_char_roundtrip_on_bmp_witness :
    isRustChar 97 ∧ 97 < 0x10000 ∧ fromJavaChar (intoJavaChar 97) = some 97 :=
  ⟨by decide, by decide, c7_char_roundtrip_on_bmp 97 (by decide) (by decide)⟩

/-- C9: the unchecked JNI-to-host boolean conversion returns `true` if
and only if the incoming jboolean equals exactly 1; in particular the
nonzero byte 2 converts to `false`; and the host-to-JNI conversion only
ever produces 0 or 1. -/
theorem c9_from_java_bool_iff_one :
    ∀ s : Nat, (fromJavaBool s = true ↔ s = 1) ∧
      fromJavaBool 2 = false ∧
      (∀ b : Bool, intoJavaBool b = 0 ∨ intoJavaBool b = 1) := by
  intro s
  refine ⟨?_, by decide, ?_⟩
  · simp [fromJavaBool]
  · intro b
    cases b <;> simp [intoJavaBool]

/-- C10: the unchecked conversion of a Java boolean array always returns
the empty slice, whatever the length of the incoming array, because the
read buffer is built from `Vec::with_capacity(len)` (length 0) before
being boxed, so the region read and the element conversion both act on
zero elements. -/
theorem c10_bool_array_always_empty :
    ∀ arr : List Nat, fromJavaBoolArray arr = some [] := by
  intro arr
  simp [fromJavaBoolArray, vecWithCapacityBoxed, getBooleanArrayRegion]

/-- Helper: the item walk distributes over list append, both in output
items and in diagnostics. -/
theorem transformItems_append (ex im : RsMethod → RsMethod)
    (pm : List (String × Option String)) (xs ys : List RsItem) :
    transformItems ex im pm (xs ++ ys) =
      ((transformItems ex im pm xs).1 ++ (transformItems ex im pm ys).1,
       (transformItems ex im pm xs).2 ++ (transformItems ex im pm ys).2) := by
  induction xs with
  | nil => simp [transformItems]
  | cons it rest ih => simp [transformItems, ih]

/-- C3: an impl block whose self type has no resolved package is emitted
unmodified — same items, no freestanding native entry point — with
exactly one Warning diagnostic naming the type, and the walk over the
surrounding module items continues unaffected on both sides of it. -/
theorem c3_unresolved_impl_emitted_unmodified
    (ex im : RsMethod → RsMethod) (pm : List (String × Option String))
    (name : String) (methods : List RsMethod) (pre post : List RsItem)
    (h : structPackage pm name = none) :
    transformItemImpl ex im pm ⟨SelfTy.path name, methods⟩ =
      { implItems := methods
        freestanding := []
        diags := [⟨Severity.warning,
          "can\x27t find package for struct `" ++ name ++ "`"⟩] } ∧
    transformItems ex im pm
        (pre ++ RsItem.implBlock ⟨SelfTy.path name, methods⟩ :: post) =
      ((transformItems ex im pm pre).1 ++
          OutItem.implBlock methods :: (transformItems ex im pm post).1,
       (transformItems ex im pm pre).2 ++
          ⟨Severity.warning, "can\x27t find package for struct `" ++ name ++ "`"⟩
            :: (transformItems ex im pm post).2) := by
  have h1 : transformItemImpl ex im pm ⟨SelfTy.path name, methods⟩ =
      { implItems := methods
        freestanding := []
        diags := [⟨Severity.warning,
          "can\x27t find package for struct `" ++ name ++ "`"⟩] } := by
    simp [transformItemImpl, h]
  refine ⟨h1, ?_⟩
  rw [transformItems_append]
  simp [transformItems, transformItem, h1]

/-- C3 (witness): the unresolved-impl behaviour at a concrete module of
three items, the middle one an impl of the unresolvable type `Foo`. -/
theorem c3_unresolved_impl_emitted_unmodified_witness :
    structPackage [] "Foo" = none ∧
    (transformItemImpl id id [] ⟨SelfTy.path "Foo", [⟨true, some "jni", [], "f"⟩]⟩ =
      { implItems := [⟨true, some "jni", [], "f"⟩]
        freestanding := []
        diags := [⟨Severity.warning,
          "can\x27t find package for struct `" ++ "Foo" ++ "`"⟩] } ∧
    transformItems id id []
        ([RsItem.other 0] ++
          RsItem.implBlock ⟨SelfTy.path "Foo", [⟨true, some "jni", [], "f"⟩]⟩
            :: [RsItem.other 1]) =
      ((transformItems id id [] [RsItem.other 0]).1 ++
          OutItem.implBlock [⟨true, some "jni", [], "f"⟩]
            :: (transformItems id id [] [RsItem.other 1]).1,
       (transformItems id id [] [RsItem.other 0]).2 ++
          ⟨Severity.warning, "can\x27t find package for struct `" ++ "Foo" ++ "`"⟩
            :: (transformItems id id [] [RsItem.other 1]).2)) :=
  ⟨rfl, c3_unresolved_impl_emitted_unmodified id id [] "Foo"
    [⟨true, some "jni", [], "f"⟩] [RsItem.other 0] [RsItem.other 1] rfl⟩

/-- C6 (counterexample): `transform_generics` pushes the `env` lifetime
parameter unconditionally, so a method that itself declares an `env`
lifetime among its generic parameters ends up with two `env` parameters
in the rewritten list — with or without a receiver — falsifying the
claim that the rewritten list contains the injected parameter exactly
once for every Exported method. -/
theorem c6_counterexample_method_level_env_duplicated :
    (transformGenerics ⟨"Foo", ["env"]⟩ [GenParam.lifetime "env"] true).count
        (GenParam.lifetime "env") = 2 ∧
    (transformGenerics ⟨"Foo", []⟩ [GenParam.lifetime "env"] false).count
        (GenParam.lifetime "env") = 2 := by
  decide

/-- C6 (amended): provided the method does not itself declare an `env`
lifetime among its generic parameters, the rewritten generic parameter
list contains the injected `env` lifetime parameter exactly once, as the
last parameter — appended after any threaded struct-level lifetimes; a
struct-level `env` lifetime is filtered out of the threaded list rather
than pushed again, so it is reused, never duplicated. -/
theorem c6_env_lifetime_injected_once
    (st : StructPath) (g : List GenParam) (sm : Bool)
    (h : GenParam.lifetime "env" ∉ g) :
    (transformGenerics st g sm).count (GenParam.lifetime "env") = 1 ∧
    (transformGenerics st g sm).getLast? = some (GenParam.lifetime "env") := by
  constructor
  · unfold transformGenerics
    rw [List.count_append]
    have hg : g.count (GenParam.lifetime "env") = 0 := List.count_eq_zero.mpr h
    have hm : ((st.lifetimes.filter (fun l => l != "env")).map GenParam.lifetime).count
        (GenParam.lifetime "env") = 0 := by
      rw [List.count_eq_zero]
      intro hmem
      obtain ⟨l, hl, hEq⟩ := List.mem_map.mp hmem
      have : l = "env" := by injection hEq
      subst this
      have := (List.mem_filter.mp hl).2
      simp at this
    cases sm <;> simp [hg, hm, List.count_append]
  · unfold transformGenerics
    exact List.getLast?_concat _

/-- C6 (amended, witness): a self method with one type parameter (and no
`env` lifetime of its own) on a struct that carries both an unrelated
lifetime and the `env` lifetime: the output ends in exactly one `env`
lifetime parameter. -/
theorem c6_env_lifetime_injected_once_witness :
    GenParam.lifetime "env" ∉ [GenParam.typeParam "T"] ∧
    (transformGenerics ⟨"Foo", ["a", "env"]⟩ [GenParam.typeParam "T"] true).count
        (GenParam.lifetime "env") = 1 ∧
    (transformGenerics ⟨"Foo", ["a", "env"]⟩ [GenParam.typeParam "T"] true).getLast? =
        some (GenParam.lifetime "env") :=
  ⟨by decide,
   (c6_env_lifetime_injected_once ⟨"Foo", ["a", "env"]⟩ [GenParam.typeParam "T"]
      true (by decide)).1,
   (c6_env_lifetime_injected_once ⟨"Foo", ["a", "env"]⟩ [GenParam.typeParam "T"]
      true (by decide)).2⟩

/-- C5 (counterexample): a parameter whose type is not nominal (here a
non-path, non-reference type such as a tuple) is substituted anyway and
no Error diagnostic is recorded for it, contradicting the claim that a
non-nominal parameter type is diagnosed and left unsubstituted. -/
theorem c5_counterexample_param_not_checked :
    jniFoldFnArg ⟨"Foo", []⟩ "Foo" "bar" id CallType.unchecked
        (FnArg.typed "x" (RsType.other 0)) =
      (FnArg.typed "x" (RsType.assoc (RsType.other 0) "FromJavaValue" "Source"),
       []) ∧
    RsType.assoc (RsType.other 0) "FromJavaValue" "Source" ≠ RsType.other 0 := by
  decide

/-- C5 (amended): the shape check applies to the return type only.
Every parameter type, nominal or not, is substituted with the Source
associated type with no diagnostic; a return type that is neither a path
nor a reference is left unsubstituted with exactly one Error diagnostic;
and a reference return type is accepted even when its referent is
non-nominal. -/
theorem c5_amended_only_return_type_checked
    (st : StructPath) (sn fn : String) (uid : String → String) (ct : CallType) :
    (∀ pat ty, pat ≠ "self" →
      jniFoldFnArg st sn fn uid ct (FnArg.typed pat ty) =
        (FnArg.typed pat (RsType.assoc ty (sourceTraitName ct) "Source"), [])) ∧
    (∀ k, jniFoldReturnType ct (RsReturnType.someTy (RsType.other k)) =
        (RsReturnType.someTy (RsType.other k),
         [⟨Severity.error, onlyTypesErrMsg⟩])) ∧
    (∀ e, jniFoldReturnType ct (RsReturnType.someTy (RsType.ref e)) =
        (RsReturnType.someTy
          (RsType.assoc (RsType.ref e) (targetTraitName ct) "Target"), [])) := by
  refine ⟨?_, ?_, ?_⟩
  · intro pat ty hp
    have hb : (pat == "self") = false := by
      simpa using hp
    cases ct <;>
      simp [jniFoldFnArg, freestandingFoldFnArg, hb, sourceTraitName]
  · intro k
    cases ct <;> rfl
  · intro e
    cases ct <;> rfl

/-- C5 (amended, witness): the three amended behaviours at concrete
inputs — a tuple-typed parameter substituted silently, a tuple return
type diagnosed and left alone, a reference-to-tuple return type
accepted. -/
theorem c5_amended_only_return_type_checked_witness :
    jniFoldFnArg ⟨"Foo", []⟩ "Foo" "bar" id CallType.safe
        (FnArg.typed "x" (RsType.other 3)) =
      (FnArg.typed "x" (RsType.assoc (RsType.other 3) "TryFromJavaValue" "Source"),
       []) ∧
    jniFoldReturnType CallType.safe (RsReturnType.someTy (RsType.other 3)) =
      (RsReturnType.someTy (RsType.other 3),
       [⟨Severity.error, onlyTypesErrMsg⟩]) ∧
    jniFoldReturnType CallType.safe (RsReturnType.someTy (RsType.ref (RsType.other 3))) =
      (RsReturnType.someTy
        (RsType.assoc (RsType.ref (RsType.other 3)) "TryIntoJavaValue" "Target"),
       []) :=
  ⟨(c5_amended_only_return_type_checked ⟨"Foo", []⟩ "Foo" "bar" id CallType.safe).1
      "x" (RsType.other 3) (by decide),
   (c5_amended_only_return_type_checked ⟨"Foo", []⟩ "Foo" "bar" id CallType.safe).2.1 3,
   (c5_amended_only_return_type_checked ⟨"Foo", []⟩ "Foo" "bar" id CallType.safe).2.2
      (RsType.other 3)⟩

/-- C8 (counterexample): an impl of a resolved type containing a single
Exported method still contains one item after transformation — the
Exported method in cleaned form (extern marker and `call_type` attribute
stripped) — rather than being shrunk to zero items. -/
theorem c8_counterexample_block_not_shrunk :
    classify ⟨true, some "jni", ["call_type"], "foo"⟩ = ImplItemType.exported ∧
    (transformItemImpl id id [("Foo", some "com.example")]
        ⟨SelfTy.path "Foo", [⟨true, some "jni", ["call_type"], "foo"⟩]⟩).implItems =
      [⟨true, none, [], "foo"⟩] ∧
    (transformItemImpl id id [("Foo", some "com.example")]
        ⟨SelfTy.path "Foo", [⟨true, some "jni", ["call_type"], "foo"⟩]⟩).implItems.length
      = 1 := by
  decide

/-- C8 (amended): for a resolved type, each Exported method is emitted,
transformed, as a freestanding item appended after the block in original
relative order; the block itself keeps every method — Exported methods
in cleaned form, Imported methods transformed in place, Unexported
methods untouched — so its item count is unchanged. -/
theorem c8_amended_block_keeps_cleaned_exported
    (ex im : RsMethod → RsMethod) (pm : List (String × Option String))
    (name : String) (methods : List RsMethod) (pkg : String)
    (h : structPackage pm name = some pkg) :
    transformItemImpl ex im pm ⟨SelfTy.path name, methods⟩ =
      { implItems := methods.map (fun m =>
          match classify m with
          | ImplItemType.exported => implCleanerFold m
          | ImplItemType.imported => im (implCleanerFold m)
          | ImplItemType.unexported => m)
        freestanding := (methods.filter (fun m => isExported (classify m))).map ex
        diags := [] } ∧
    (transformItemImpl ex im pm ⟨SelfTy.path name, methods⟩).implItems.length =
      methods.length := by
  have h1 : transformItemImpl ex im pm ⟨SelfTy.path name, methods⟩ =
      { implItems := methods.map (fun m =>
          match classify m with
          | ImplItemType.exported => implCleanerFold m
          | ImplItemType.imported => im (implCleanerFold m)
          | ImplItemType.unexported => m)
        freestanding := (methods.filter (fun m => isExported (classify m))).map ex
        diags := [] } := by
    simp [transformItemImpl, h]
  exact ⟨h1, by rw [h1]; simp⟩

/-- C8 (amended, witness): a resolved impl with one Exported, one
Imported and one Unexported method keeps all three in the block and
appends exactly the Exported one as a freestanding item. -/
theorem c8_amended_block_keeps_cleaned_exported_witness :
    structPackage [("Foo", some "com.example")] "Foo" = some "com.example" ∧
    (transformItemImpl id id [("Foo", some "com.example")]
        ⟨SelfTy.path "Foo",
          [⟨true, some "jni", ["call_type"], "e"⟩,
           ⟨false, some "java", [], "i"⟩,
           ⟨false, none, [], "u"⟩]⟩ =
      { implItems :=
          [⟨true, some "jni", ["call_type"], "e"⟩,
           ⟨false, some "java", [], "i"⟩,
           ⟨false, none, [], "u"⟩].map (fun m =>
            match classify m with
            | ImplItemType.exported => implCleanerFold m
            | ImplItemType.imported => id (implCleanerFold m)
            | ImplItemType.unexported => m)
        freestanding :=
          ([⟨true, some "jni", ["call_type"], "e"⟩,
            ⟨false, some "java", [], "i"⟩,
            ⟨false, none, [], "u"⟩].filter (fun m => isExported (classify m))).map id
        diags := [] } ∧
    (transformItemImpl id id [("Foo", some "com.example")]
        ⟨SelfTy.path "Foo",
          [⟨true, some "jni", ["call_type"], "e"⟩,
           ⟨false, some "java", [], "i"⟩,
           ⟨false, none, [], "u"⟩]⟩).implItems.length = 3) :=
  ⟨rfl, c8_amended_block_keeps_cleaned_exported id id [("Foo", some "com.example")]
    "Foo"
    [⟨true, some "jni", ["call_type"], "e"⟩,
     ⟨false, some "java", [], "i"⟩,
     ⟨false, none, [], "u"⟩] "com.example" rfl⟩

/-- Helper: on any argument, the Safe fold of `fold_fn_arg` is the
Unchecked fold with the head substitution retagged to the fallible
family; the diagnostics agree. -/
theorem jniFoldFnArg_safe_retag (st : StructPath) (sn fn : String)
    (uid : String → String) (a : FnArg) :
    jniFoldFnArg st sn fn uid CallType.safe a =
      (retagFnArg (jniFoldFnArg st sn fn uid CallType.unchecked a).1,
       (jniFoldFnArg st sn fn uid CallType.unchecked a).2) := by
  have e1 : tryFamilyName "FromJavaValue" = "TryFromJavaValue" := by decide
  rcases hfr : freestandingFoldFnArg st sn fn uid a with ⟨fa, ds⟩
  cases fa with
  | receiver r m => simp [jniFoldFnArg, hfr, retagFnArg]
  | typed pat ty => simp [jniFoldFnArg, hfr, retagFnArg, retagHeadType, e1]

/-- Helper: on any return type whose head is not already a substitution
node, the Safe fold of `fold_return_type` is the Unchecked fold with the
head substitution retagged to the fallible family; the diagnostics
agree. -/
theorem jniFoldReturnType_safe_retag (rt : RsReturnType)
    (h : rt.headIsAssoc = false) :
    jniFoldReturnType CallType.safe rt =
      (retagReturn (jniFoldReturnType CallType.unchecked rt).1,
       (jniFoldReturnType CallType.unchecked rt).2) := by
  have e2 : tryFamilyName "IntoJavaValue" = "TryIntoJavaValue" := by decide
  cases rt with
  | default => rfl
  | someTy t =>
    cases t with
    | path n ls => simp [jniFoldReturnType, retagReturn, retagHeadType, e2]
    | ref e => simp [jniFoldReturnType, retagReturn, retagHeadType, e2]
    | other k => simp [jniFoldReturnType, retagReturn, retagHeadType]
    | assoc b tr nm =>
        simp [RsReturnType.headIsAssoc, RsType.headIsAssoc] at h

/-- C4: for an Exported method, every parameter type `T` is replaced by
the Source associated type and a nominal return type by the Target
associated type of the conversion family the method CallType selects —
the fallible `TryFromJavaValue` / `TryIntoJavaValue` pair for Safe, the
infallible `FromJavaValue` / `IntoJavaValue` pair for Unchecked; and
switching the CallType tag of an otherwise identical method changes
nothing in the rewritten signature but the family names of these
substitutions (identifier, generics, ABI and diagnostics coincide). -/
theorem c4_calltype_selects_conversion_family
    (st : StructPath) (sn fn : String) (uid : String → String) (ct : CallType)
    (sig : RsSignature) (pat : String) (ty : RsType) (n : String)
    (ls : List String) (hp : pat ≠ "self")
    (ho : sig.output.headIsAssoc = false) :
    jniFoldFnArg st sn fn uid ct (FnArg.typed pat ty) =
      (FnArg.typed pat (RsType.assoc ty (sourceTraitName ct) "Source"), []) ∧
    jniFoldReturnType ct (RsReturnType.someTy (RsType.path n ls)) =
      (RsReturnType.someTy
        (RsType.assoc (RsType.path n ls) (targetTraitName ct) "Target"), []) ∧
    (jniFoldSignature st sn fn uid CallType.safe sig).1 =
      retagSignature (jniFoldSignature st sn fn uid CallType.unchecked sig).1 ∧
    (jniFoldSignature st sn fn uid CallType.safe sig).2 =
      (jniFoldSignature st sn fn uid CallType.unchecked sig).2 := by
  refine ⟨?_, ?_, ?_, ?_⟩
  · have hb : (pat == "self") = false := by simpa using hp
    cases ct <;>
      simp [jniFoldFnArg, freestandingFoldFnArg, hb, sourceTraitName]
  · cases ct <;> rfl
  · unfold jniFoldSignature retagSignature
    simp only [RsSignature.mk.injEq]
    refine ⟨trivial, trivial, ?_, ?_, trivial⟩
    · rw [List.map_map]
      refine List.map_congr_left fun a _ => ?_
      rw [jniFoldFnArg_safe_retag]
      rfl
    · exact congrArg Prod.fst (jniFoldReturnType_safe_retag sig.output ho)
  · unfold jniFoldSignature
    simp only []
    have harg : sig.inputs.map
          (fun a => (jniFoldFnArg st sn fn uid CallType.safe a).2) =
        sig.inputs.map
          (fun a => (jniFoldFnArg st sn fn uid CallType.unchecked a).2) :=
      List.map_congr_left fun a _ => by rw [jniFoldFnArg_safe_retag]
    rw [harg, congrArg Prod.snd (jniFoldReturnType_safe_retag sig.output ho)]

/-- C4 (witness): the substitution behaviour at a concrete Unchecked
instance method taking a string and returning a string. -/
theorem c4_calltype_selects_conversion_family_witness :
    jniFoldFnArg ⟨"Foo", ["env"]⟩ "Foo" "bar" id CallType.unchecked
        (FnArg.typed "x" (RsType.path "String" [])) =
      (FnArg.typed "x"
        (RsType.assoc (RsType.path "String" []) "FromJavaValue" "Source"), []) ∧
    jniFoldReturnType CallType.unchecked
        (RsReturnType.someTy (RsType.path "String" [])) =
      (RsReturnType.someTy
        (RsType.assoc (RsType.path "String" []) "IntoJavaValue" "Target"), []) ∧
    (jniFoldSignature ⟨"Foo", ["env"]⟩ "Foo" "bar" id CallType.safe
        ⟨"bar", [], [FnArg.receiver true false,
          FnArg.typed "x" (RsType.path "String" [])],
          RsReturnType.someTy (RsType.path "String" []), some "jni"⟩).1 =
      retagSignature (jniFoldSignature ⟨"Foo", ["env"]⟩ "Foo" "bar" id
        CallType.unchecked
        ⟨"bar", [], [FnArg.receiver true false,
          FnArg.typed "x" (RsType.path "String" [])],
          RsReturnType.someTy (RsType.path "String" []), some "jni"⟩).1 ∧
    (jniFoldSignature ⟨"Foo", ["env"]⟩ "Foo" "bar" id CallType.safe
        ⟨"bar", [], [FnArg.receiver true false,
          FnArg.typed "x" (RsType.path "String" [])],
          RsReturnType.someTy (RsType.path "String" []), some "jni"⟩).2 =
      (jniFoldSignature ⟨"Foo", ["env"]⟩ "Foo" "bar" id CallType.unchecked
        ⟨"bar", [], [FnArg.receiver true false,
          FnArg.typed "x" (RsType.path "String" [])],
          RsReturnType.someTy (RsType.path "String" []), some "jni"⟩).2 :=
  c4_calltype_selects_conversion_family ⟨"Foo", ["env"]⟩ "Foo" "bar" id
    CallType.unchecked
    ⟨"bar", [], [FnArg.receiver true false,
      FnArg.typed "x" (RsType.path "String" [])],
      RsReturnType.someTy (RsType.path "String" []), some "jni"⟩
    "x" (RsType.path "String" []) "String" [] (by decide) (by decide)
